import Mathlib

/-!
Verification of the Postgres-to-ClickHouse sync program
(src/postgrestoclickhouse/code.py) against its natural-language
specification.

Modelling conventions (shallow embedding):
- Calendar dates are modelled as `Int` day numbers: calendar dates are
  totally ordered and order-isomorphic to an interval of the integers,
  `date - timedelta(days=k)` is `d - k`, and `(a - b).days` is `a - b`.
- A Python `datetime` carries its date part (an `Int` day number) and a
  time-of-day payload (a `Nat`); `.date()` keeps only the date part.
- `datetime.datetime.strptime(s, %Y-%m-%d).date()` belongs to the Python
  standard library, not to this repository, so it is abstracted as a
  parameter `parse : String → Option Int` (`none` models the exception
  caught by the bare `except:`); every claim is parse-agnostic.
- `datetime.date.today()` is an explicit parameter `today : Int`.
- Python `dict`s are association lists in insertion order; `dict.get`
  returns `Option`, a `KeyError` on `row[col]` is `Option.none` threaded
  through the enclosing computation.
- A raised exception that the code does not catch makes the modelled
  computation return `none` (for `Option`-valued functions).
-/

/-- A scalar value in a Postgres row, as discriminated by
`convert_row_for_ch` (code.py lines 14-30): `None`, `int`/`float`,
`str`, `datetime.date`, `datetime.datetime`, or anything else (carried
with the string `str(val)` would produce). Numeric values are collapsed
to `vint` since no claim distinguishes `int` from `float`. -/
inductive PgVal where
  | vnone : PgVal
  | vint : Int → PgVal
  | vstr : String → PgVal
  | vdate : Int → PgVal
  | vdatetime : Int → Nat → PgVal
  | vother : String → PgVal
deriving DecidableEq, Repr

/-- The `lad` argument of `get_account_status_optimized` (code.py lines
43-54): `None`, a `datetime.date`, a `datetime.datetime` (date part and
time-of-day), or a string to be parsed. -/
inductive PyDateVal where
  | vnone : PyDateVal
  | vdate : Int → PyDateVal
  | vdatetime : Int → Nat → PyDateVal
  | vstr : String → PyDateVal
deriving DecidableEq, Repr

/-- The `ob_date` / `first_case_date` arguments of
`get_account_status_optimized` (code.py lines 69-72): `None`, a
`datetime.date`, or a `datetime.datetime`. -/
inductive PyDT where
  | dnone : PyDT
  | ddate : Int → PyDT
  | ddatetime : Int → Nat → PyDT
deriving DecidableEq, Repr

/-- Normalisation of `ob_date` / `first_case_date` (code.py lines 69-72:
convert a `datetime` to its date) combined with the `is not None` filter
of line 75: the optional calendar date the value contributes to
`candidates`. -/
def toDateOpt : PyDT → Option Int
  | PyDT.dnone => none
  | PyDT.ddate d => some d
  | PyDT.ddatetime d _ => some d

/-- `candidates = [d for d in [ob_date, first_case_date] if d is not None]`
followed by `max(candidates)` when non-empty (code.py lines 75-77):
the base date, when at least one of the two reference dates is present. -/
def baseDate : Option Int → Option Int → Option Int
  | none, none => none
  | some b, none => some b
  | none, some c => some c
  | some b, some c => some (max b c)

/-- code.py lines 56-86: the part of `get_account_status_optimized` that
runs once `lad` has been normalised to a calendar date `lad : Int`.
The final `return "Unknown"` of line 86 is the last `else`. -/
def account_status_from_date (today : Int) (lad : Int)
    (ob_date first_case_date : PyDT) : String :=
  if lad ≥ today - 7 then "Active"
  else if lad < today - 7 ∧ lad ≥ today - 30 then "In-Active"
  else if lad < today - 30 then
    match baseDate (toDateOpt ob_date) (toDateOpt first_case_date) with
    | some base_date =>
      if lad - base_date < 30 then "Incubation Churn" else "Post D30 Churn"
    | none => "Churned"
  else "Unknown"

/-- code.py lines 35-86, `get_account_status_optimized`: the account
status classifier. `onboard_status` is an arbitrary row value compared
with the string literal; `lad` is dispatched on its runtime type exactly
as lines 44-54 do, with `parse` standing for
`datetime.datetime.strptime(lad, %Y-%m-%d).date()` and `none` for the
caught exception. -/
def get_account_status_optimized (parse : String → Option Int)
    (today : Int) (lad : PyDateVal) (onboard_status : PgVal)
    (ob_date first_case_date : PyDT) : String :=
  if onboard_status = PgVal.vstr "Yet To Onboard" then "Yet To Onboard"
  else
    match lad with
    | PyDateVal.vnone => "Still Born/Not started"
    | PyDateVal.vdate d => account_status_from_date today d ob_date first_case_date
    | PyDateVal.vdatetime d _ => account_status_from_date today d ob_date first_case_date
    | PyDateVal.vstr s =>
      match parse s with
      | none => "Still Born/Not started"
      | some d => account_status_from_date today d ob_date first_case_date

/-- A parse function that rejects every string; used to instantiate the
abstract `parse` parameter in concrete evaluations. -/
def parse0 : String → Option Int := fun _ => none

/-- A Postgres row as delivered by `RealDictCursor`: an ordered mapping
from column name to value, modelled as an association list in insertion
order with distinct keys looked up first-match. -/
abbrev Row : Type := List (String × PgVal)

/-- `col in row` / `row[col]` on a dict: the first binding of the key,
`none` when the key is absent (a bare `row[col]` raising `KeyError` is
modelled by the caller propagating the `none`). -/
def lookupRow : Row → String → Option PgVal
  | [], _ => none
  | (k, v) :: rest, c => if c = k then some v else lookupRow rest c

/-- `dict.keys()`: the keys of the mapping in order. -/
def rowKeys (row : Row) : List String := row.map Prod.fst

/-- `row_dict[k] = v` on a Python dict: replace the value at an existing
key in place, or append the new binding at the end. -/
def setCol : Row → String → PgVal → Row
  | [], k, v => [(k, v)]
  | (k0, v0) :: rest, k, v =>
    if k = k0 then (k0, v) :: rest else (k0, v0) :: setCol rest k v

/-- A Python `for`-loop that builds a list, where each iteration may
raise (`none`): the whole loop yields `none` as soon as one element
does. -/
def mapOption {α β : Type} (f : α → Option β) : List α → Option (List β)
  | [] => some []
  | a :: l =>
    match f a with
    | none => none
    | some b => (mapOption f l).map (fun bs => b :: bs)

/-- code.py lines 20-29, the loop body of `convert_row_for_ch`: the
ClickHouse-compatible image of one value. -/
def convert_val : PgVal → PgVal
  | PgVal.vnone => PgVal.vnone
  | PgVal.vint n => PgVal.vint n
  | PgVal.vstr s => PgVal.vstr s
  | PgVal.vdate d => PgVal.vdate d
  | PgVal.vdatetime d t => PgVal.vdatetime d t
  | PgVal.vother r => PgVal.vstr r

/-- code.py lines 14-30, `convert_row_for_ch(row, columns)`: the
positional value list for the given columns; `none` models the
`KeyError` that `row[col]` raises when a requested column is absent. -/
def convert_row_for_ch (row : Row) : List String → Option (List PgVal)
  | [] => some []
  | col :: rest =>
    match lookupRow row col with
    | none => none
    | some val =>
      (convert_row_for_ch row rest).map (fun tail => convert_val val :: tail)

/-- code.py line 221, `{col: row[col] for col in ch_columns if col in row}`:
the row projected to the destination columns present in it, bound in
destination-schema order (Python dict comprehensions preserve iteration
order; `ch_columns` comes from `DESCRIBE TABLE` and has distinct names). -/
def filterToCh (ch_columns : List String) (row : Row) : Row :=
  ch_columns.filterMap (fun c => (lookupRow row c).map (fun v => (c, v)))

/-- code.py lines 221-224: one source row's insertion tuple —
project to the destination columns, then run `convert_row_for_ch` over
the projection's own keys. -/
def prepare_row (ch_columns : List String) (row : Row) : Option (List PgVal) :=
  convert_row_for_ch (filterToCh ch_columns row) (rowKeys (filterToCh ch_columns row))

/-- The three batch-lookup mappings of code.py lines 134-165, keyed by
the `client_fk` value of each row: last activity (`lad_dict`),
onboarding timestamp (`onboard_dict`), first case (`first_case_dict`). -/
structure Enrichment where
  lad_dict : List (PgVal × PyDateVal)
  onboard_dict : List (PgVal × PyDT)
  first_case_dict : List (PgVal × PyDT)

/-- `dict.get(k)`: first binding of the key, `none` when absent. -/
def dictGet {α : Type} : List (PgVal × α) → PgVal → Option α
  | [], _ => none
  | (k, v) :: rest, c => if c = k then some v else dictGet rest c

/-- code.py lines 129-178: the enrichment batch. `fetch` is the combined
outcome of the three ClickHouse queries (an external collaborator):
`Except.error` models any exception inside the `try`, caught by the
handler of lines 174-178 which resets all three dicts to empty; the
`if client_fks` of line 130 yields empty dicts without querying. -/
def get_enrichment (client_fks : List PgVal)
    (fetch : Except String Enrichment) : Enrichment :=
  if client_fks.isEmpty then ⟨[], [], []⟩
  else
    match fetch with
    | Except.ok e => e
    | Except.error _ => ⟨[], [], []⟩

/-- code.py lines 182-201, one iteration of the enrichment loop: read
`client_fk` and `onboard_status` from the row (a missing column raises,
hence `none`), look up the three pre-fetched dicts with `.get`
(absent key gives Python `None`), classify, and set `account_status`
on a copy of the row. -/
def enhance_row (parse : String → Option Int) (today : Int)
    (enr : Enrichment) (row : Row) : Option Row :=
  match lookupRow row "client_fk" with
  | none => none
  | some client_fk =>
    match lookupRow row "onboard_status" with
    | none => none
    | some onboard_status =>
      let lad := (dictGet enr.lad_dict client_fk).getD PyDateVal.vnone
      let ob_date := (dictGet enr.onboard_dict client_fk).getD PyDT.dnone
      let first_case_date := (dictGet enr.first_case_dict client_fk).getD PyDT.dnone
      let account_status :=
        get_account_status_optimized parse today lad onboard_status ob_date first_case_date
      some (setCol row "account_status" (PgVal.vstr account_status))

/-- code.py lines 124-232 for the non-empty `client_group` row set:
collect the `client_fk`s (line 125), build the enrichment (lines
129-178), enhance every row (lines 181-203), project and convert every
row (lines 218-224), and insert — the inserted tuples are the resulting
destination contents, since the insert follows a `TRUNCATE`. `none` is
an uncaught exception aborting the sync. -/
def sync_body (parse : String → Option Int) (today : Int)
    (ch_columns : List String) (rows : List Row)
    (fetch : Except String Enrichment) : Option (List (List PgVal)) :=
  (mapOption (fun row => lookupRow row "client_fk") rows).bind (fun client_fks =>
    (mapOption (enhance_row parse today (get_enrichment client_fks fetch)) rows).bind
      (fun enhanced => mapOption (prepare_row ch_columns) enhanced))

/-- code.py lines 91-232, `sync_pg_to_ch` specialised to the
`client_group` table: `rows` is the Postgres query result, `dest` the
destination table contents before the sync, and the result the
destination contents afterwards (`none` = uncaught exception). An empty
row set returns early (lines 120-122) leaving `dest` untouched;
otherwise the table is truncated and the prepared tuples inserted
(lines 226-232), so the prior contents are discarded. -/
def sync_pg_to_ch_client_group (parse : String → Option Int) (today : Int)
    (ch_columns : List String) (rows : List Row)
    (fetch : Except String Enrichment) (dest : List (List PgVal)) :
    Option (List (List PgVal)) :=
  if rows.isEmpty then some dest
  else sync_body parse today ch_columns rows fetch

/-- The lead-side columns of one output row of the `client_group` source
query (code.py lines 103-115): after `LEFT JOIN public.lead l`, each of
`l.existing_client`, `l.client_fk`, `l.stage` is `NULL` (`none`) either
because the matched lead stores `NULL` there or because no lead matched
(a join miss makes all three `none`). -/
structure LeadCols where
  existing_client : Option PgVal
  client_fk : Option PgVal
  stage : Option String
deriving DecidableEq, Repr

/-- SQL three-valued `l.stage <> 'Onboarded'` as a `CASE WHEN` condition:
`NULL <> x` is `UNKNOWN`, which does not select the branch. -/
def sql_stage_not_onboarded : Option String → Bool
  | none => false
  | some s => s ≠ "Onboarded"

/-- code.py lines 105-111, the `CASE` expression of the source query:
`onboard_status` for one joined row. -/
def onboard_status_case (l : LeadCols) : String :=
  if l.existing_client.isNone ∧ l.client_fk.isSome ∧ sql_stage_not_onboarded l.stage
  then "Yet To Onboard" else "Onboarded"

/-- Modelled from the spec: the onboarding classification as the spec
sentence words it — "entity has no onboarding record, or a linked lead
exists whose stage is not Onboarded → Yet To Onboard; otherwise →
Onboarded" — with "no onboarding record" read as `existing_client`
being `NULL` and "a linked lead exists" as `l.client_fk` being
non-`NULL`. Kept separate from `onboard_status_case` (the code) for the
refinement comparison of claim C5. -/
def onboard_status_claimed (l : LeadCols) : String :=
  if l.existing_client.isNone ∨ (l.client_fk.isSome ∧ sql_stage_not_onboarded l.stage)
  then "Yet To Onboard" else "Onboarded"

/-- Helper: with `onboard_status` different from the literal, the
classifier on a date-valued (or datetime-valued) `lad` is the date-level
cascade of lines 56-86. -/
theorem get_account_status_on_date (parse : String → Option Int) (today : Int)
    (d : Int) (t : Nat) (ob : PgVal) (obd fcd : PyDT)
    (h : ob ≠ PgVal.vstr "Yet To Onboard") :
    get_account_status_optimized parse today (PyDateVal.vdate d) ob obd fcd =
      account_status_from_date today d obd fcd ∧
    get_account_status_optimized parse today (PyDateVal.vdatetime d t) ob obd fcd =
      account_status_from_date today d obd fcd := by
  constructor <;> (unfold get_account_status_optimized; rw [if_neg h])

/-- Claim C1: whenever `onboardStatus` equals the string
`Yet To Onboard`, the classifier returns `Yet To Onboard`, whatever the
other three arguments (and the parse function and evaluation date) are. -/
theorem claim_C1_yet_to_onboard_gate (parse : String → Option Int) (today : Int)
    (lad : PyDateVal) (ob_date first_case_date : PyDT) :
    get_account_status_optimized parse today lad (PgVal.vstr "Yet To Onboard")
      ob_date first_case_date = "Yet To Onboard" := by
  unfold get_account_status_optimized
  rw [if_pos rfl]

/-- Claim C2: with `onboardStatus` different from `Yet To Onboard` and a
date- or datetime-valued `lastActivityDate` of date part `d`: if
`d ≥ today - 7` the classifier returns `Active`, and if
`today - 30 ≤ d < today - 7` it returns `In-Active`. -/
theorem claim_C2_recency_bands (parse : String → Option Int) (today : Int)
    (ob : PgVal) (obd fcd : PyDT) (h : ob ≠ PgVal.vstr "Yet To Onboard") :
    ∀ (d : Int) (t : Nat),
      (today - 7 ≤ d →
        get_account_status_optimized parse today (PyDateVal.vdate d) ob obd fcd = "Active" ∧
        get_account_status_optimized parse today (PyDateVal.vdatetime d t) ob obd fcd = "Active") ∧
      (today - 30 ≤ d → d < today - 7 →
        get_account_status_optimized parse today (PyDateVal.vdate d) ob obd fcd = "In-Active" ∧
        get_account_status_optimized parse today (PyDateVal.vdatetime d t) ob obd fcd = "In-Active") := by
  intro d t
  obtain ⟨e1, e2⟩ := get_account_status_on_date parse today d t ob obd fcd h
  constructor
  · intro hd
    have key : account_status_from_date today d obd fcd = "Active" := by
      unfold account_status_from_date
      rw [if_pos (show d ≥ today - 7 by omega)]
    exact ⟨e1.trans key, e2.trans key⟩
  · intro h30 h7
    have key : account_status_from_date today d obd fcd = "In-Active" := by
      unfold account_status_from_date
      rw [if_neg (show ¬ d ≥ today - 7 by omega),
          if_pos (show d < today - 7 ∧ d ≥ today - 30 by omega)]
    exact ⟨e1.trans key, e2.trans key⟩

/-- Witness for C2 at `today = 0`: a last activity 3 days ago is
`Active`, one 10 days ago is `In-Active`. -/
theorem claim_C2_recency_bands_witness :
    get_account_status_optimized parse0 0 (PyDateVal.vdate (-3))
      PgVal.vnone PyDT.dnone PyDT.dnone = "Active" ∧
    get_account_status_optimized parse0 0 (PyDateVal.vdatetime (-10) 5)
      PgVal.vnone PyDT.dnone PyDT.dnone = "In-Active" := by
  have h := claim_C2_recency_bands parse0 0 PgVal.vnone PyDT.dnone PyDT.dnone (by decide)
  exact ⟨((h (-3) 0).1 (by decide)).1, (((h (-10) 5).2 (by decide)) (by decide)).2⟩

/-- Claim C3: with `onboardStatus` different from `Yet To Onboard` and a
date-valued `lastActivityDate` strictly older than `today - 30`: if both
reference dates are absent the result is `Churned`; if the base date
(max of those present, datetimes truncated to dates) is `b`, the result
is `Incubation Churn` when `d - b < 30` and `Post D30 Churn` when
`d - b ≥ 30`. -/
theorem claim_C3_churn_split (parse : String → Option Int) (today : Int)
    (ob : PgVal) (h : ob ≠ PgVal.vstr "Yet To Onboard")
    (d : Int) (hd : d < today - 30) :
    ∀ obd fcd : PyDT,
      (toDateOpt obd = none → toDateOpt fcd = none →
        get_account_status_optimized parse today (PyDateVal.vdate d) ob obd fcd = "Churned") ∧
      (∀ b : Int, baseDate (toDateOpt obd) (toDateOpt fcd) = some b →
        (d - b < 30 →
          get_account_status_optimized parse today (PyDateVal.vdate d) ob obd fcd
            = "Incubation Churn") ∧
        (30 ≤ d - b →
          get_account_status_optimized parse today (PyDateVal.vdate d) ob obd fcd
            = "Post D30 Churn")) := by
  intro obd fcd
  obtain ⟨e1, _⟩ := get_account_status_on_date parse today d 0 ob obd fcd h
  have key : account_status_from_date today d obd fcd =
      (match baseDate (toDateOpt obd) (toDateOpt fcd) with
       | some base_date =>
          if d - base_date < 30 then "Incubation Churn" else "Post D30 Churn"
       | none => "Churned") := by
    unfold account_status_from_date
    rw [if_neg (show ¬ d ≥ today - 7 by omega),
        if_neg (show ¬ (d < today - 7 ∧ d ≥ today - 30) by omega),
        if_pos hd]
  constructor
  · intro h1 h2
    rw [e1, key, h1, h2]
    rfl
  · intro b hb
    constructor
    · intro hlt
      rw [e1, key, hb]
      exact if_pos hlt
    · intro hge
      rw [e1, key, hb]
      exact if_neg (by omega)

/-- Witness for C3 at `today = 100`, `lastActivityDate = day 0`: no
reference dates gives `Churned`; base date 10 days before the last
activity gives `Incubation Churn`; base date 50 days before gives
`Post D30 Churn`. -/
theorem claim_C3_churn_split_witness :
    get_account_status_optimized parse0 100 (PyDateVal.vdate 0)
      PgVal.vnone PyDT.dnone PyDT.dnone = "Churned" ∧
    get_account_status_optimized parse0 100 (PyDateVal.vdate 0)
      PgVal.vnone (PyDT.ddate (-10)) (PyDT.ddatetime (-20) 3) = "Incubation Churn" ∧
    get_account_status_optimized parse0 100 (PyDateVal.vdate 0)
      PgVal.vnone (PyDT.ddate (-50)) PyDT.dnone = "Post D30 Churn" := by
  have h := claim_C3_churn_split parse0 100 PgVal.vnone (by decide) 0 (by decide)
  refine ⟨(h PyDT.dnone PyDT.dnone).1 rfl rfl, ?_, ?_⟩
  · exact ((h (PyDT.ddate (-10)) (PyDT.ddatetime (-20) 3)).2 (-10) (by decide)).1 (by decide)
  · exact ((h (PyDT.ddate (-50)) PyDT.dnone).2 (-50) rfl).2 (by decide)

/-- Claim C4: with `onboardStatus` different from `Yet To Onboard`, a
`None` last activity, or a string one that fails to parse, yields
`Still Born/Not started`; the parse failure is absorbed (the classifier
still returns a value). -/
theorem claim_C4_still_born (parse : String → Option Int) (today : Int)
    (ob : PgVal) (obd fcd : PyDT) (h : ob ≠ PgVal.vstr "Yet To Onboard") :
    get_account_status_optimized parse today PyDateVal.vnone ob obd fcd
      = "Still Born/Not started" ∧
    ∀ s : String, parse s = none →
      get_account_status_optimized parse today (PyDateVal.vstr s) ob obd fcd
        = "Still Born/Not started" := by
  constructor
  · unfold get_account_status_optimized
    rw [if_neg h]
  · intro s hs
    unfold get_account_status_optimized
    rw [if_neg h]
    simp only [hs]

/-- Witness for C4: `None` and an unparseable string both classify as
`Still Born/Not started`. -/
theorem claim_C4_still_born_witness :
    get_account_status_optimized parse0 20000 PyDateVal.vnone
      PgVal.vnone PyDT.dnone PyDT.dnone = "Still Born/Not started" ∧
    get_account_status_optimized parse0 20000 (PyDateVal.vstr "not-a-date")
      (PgVal.vstr "Onboarded") PyDT.dnone PyDT.dnone = "Still Born/Not started" := by
  refine ⟨(claim_C4_still_born parse0 20000 PgVal.vnone PyDT.dnone PyDT.dnone (by decide)).1, ?_⟩
  exact (claim_C4_still_born parse0 20000 (PgVal.vstr "Onboarded") PyDT.dnone PyDT.dnone
    (by decide)).2 "not-a-date" rfl

/-- Helper for C8: the date-level cascade never yields `Unknown` — the
three recency tests cover all of `Int`. -/
theorem account_status_from_date_ne_unknown (today d : Int) (obd fcd : PyDT) :
    account_status_from_date today d obd fcd ≠ "Unknown" := by
  unfold account_status_from_date
  rcases le_or_lt (today - 7) d with h1 | h1
  · rw [if_pos (show d ≥ today - 7 from h1)]
    decide
  · rw [if_neg (show ¬ d ≥ today - 7 by omega)]
    rcases le_or_lt (today - 30) d with h2 | h2
    · rw [if_pos (show d < today - 7 ∧ d ≥ today - 30 by omega)]
      decide
    · rw [if_neg (show ¬ (d < today - 7 ∧ d ≥ today - 30) by omega),
          if_pos (show d < today - 30 by omega)]
      rcases baseDate (toDateOpt obd) (toDateOpt fcd) with _ | b
      · show ("Churned" : String) ≠ "Unknown"
        decide
      · dsimp only
        rcases lt_or_le (d - b) 30 with h3 | h3
        · rw [if_pos h3]; decide
        · rw [if_neg (by omega)]; decide

/-- Claim C8: for every input (`None`, date, datetime, or string last
activity; any onboard status; any reference dates; any parse function
and evaluation date), the classifier never returns the defensive
fallback `Unknown`. -/
theorem claim_C8_unknown_unreachable (parse : String → Option Int) (today : Int)
    (lad : PyDateVal) (ob : PgVal) (obd fcd : PyDT) :
    get_account_status_optimized parse today lad ob obd fcd ≠ "Unknown" := by
  by_cases hob : ob = PgVal.vstr "Yet To Onboard"
  · subst hob
    unfold get_account_status_optimized
    rw [if_pos rfl]
    decide
  · unfold get_account_status_optimized
    rw [if_neg hob]
    cases lad with
    | vnone =>
      show ("Still Born/Not started" : String) ≠ "Unknown"
      decide
    | vdate d => exact account_status_from_date_ne_unknown today d obd fcd
    | vdatetime d t => exact account_status_from_date_ne_unknown today d obd fcd
    | vstr s =>
      show (match parse s with
            | none => "Still Born/Not started"
            | some d => account_status_from_date today d obd fcd) ≠ "Unknown"
      cases parse s with
      | none =>
        show ("Still Born/Not started" : String) ≠ "Unknown"
        decide
      | some d => exact account_status_from_date_ne_unknown today d obd fcd

/-- Claim C10: two runs of the classifier that agree on everything
except `onboardStatus`, where both statuses differ from the string
`Yet To Onboard` (e.g. `None`, `Onboarded`, any other value), return the
same result. -/
theorem claim_C10_status_noninterference (parse : String → Option Int) (today : Int)
    (lad : PyDateVal) (obd fcd : PyDT) (o1 o2 : PgVal)
    (h1 : o1 ≠ PgVal.vstr "Yet To Onboard") (h2 : o2 ≠ PgVal.vstr "Yet To Onboard") :
    get_account_status_optimized parse today lad o1 obd fcd =
    get_account_status_optimized parse today lad o2 obd fcd := by
  unfold get_account_status_optimized
  rw [if_neg h1, if_neg h2]

/-- Witness for C10: a `None` status and the string `Onboarded` classify
identically. -/
theorem claim_C10_status_noninterference_witness :
    get_account_status_optimized parse0 0 (PyDateVal.vdate 0) PgVal.vnone
      PyDT.dnone PyDT.dnone =
    get_account_status_optimized parse0 0 (PyDateVal.vdate 0) (PgVal.vstr "Onboarded")
      PyDT.dnone PyDT.dnone :=
  claim_C10_status_noninterference parse0 0 (PyDateVal.vdate 0) PyDT.dnone PyDT.dnone
    PgVal.vnone (PgVal.vstr "Onboarded") (by decide) (by decide)

/-- Helper: a binding whose key differs from every requested column does
not change `convert_row_for_ch`. -/
theorem convert_row_for_ch_cons_irrel (k : String) (v : PgVal) (r : Row)
    (cols : List String) (h : ∀ c ∈ cols, c ≠ k) :
    convert_row_for_ch ((k, v) :: r) cols = convert_row_for_ch r cols := by
  induction cols with
  | nil => rfl
  | cons c cs ih =>
    have hck : c ≠ k := h c (List.mem_cons_self c cs)
    have hlook : lookupRow ((k, v) :: r) c = lookupRow r c := by
      show (if c = k then some v else lookupRow r c) = lookupRow r c
      rw [if_neg hck]
    unfold convert_row_for_ch
    rw [hlook, ih (fun x hx => h x (List.mem_cons_of_mem c hx))]

/-- Helper: over its own (distinct) keys, `convert_row_for_ch` succeeds
and converts the values in order. -/
theorem convert_row_for_ch_self (r : Row) (hnd : (rowKeys r).Nodup) :
    convert_row_for_ch r (rowKeys r) = some (r.map (fun p => convert_val p.2)) := by
  induction r with
  | nil => rfl
  | cons p rest ih =>
    obtain ⟨k, v⟩ := p
    have hnd2 : (k :: rowKeys rest).Nodup := hnd
    have hk : k ∉ rowKeys rest := (List.nodup_cons.mp hnd2).1
    have hnd3 : (rowKeys rest).Nodup := (List.nodup_cons.mp hnd2).2
    have step1 : lookupRow ((k, v) :: rest) k = some v := by
      unfold lookupRow
      rw [if_pos rfl]
    show convert_row_for_ch ((k, v) :: rest) (k :: rowKeys rest) =
      some (convert_val v :: rest.map (fun p => convert_val p.2))
    unfold convert_row_for_ch
    rw [step1,
        convert_row_for_ch_cons_irrel k v rest (rowKeys rest)
          (fun c hc hck => hk (hck ▸ hc)),
        ih hnd3]
    rfl

/-- Helper: the keys of the projected row are the destination columns
present in the source row, in destination order. -/
theorem rowKeys_filterToCh (cols : List String) (row : Row) :
    rowKeys (filterToCh cols row) = cols.filter (fun c => (lookupRow row c).isSome) := by
  induction cols with
  | nil => rfl
  | cons c cs ih =>
    simp only [filterToCh, rowKeys, List.filterMap_cons] at ih ⊢
    cases hc : lookupRow row c with
    | none => simp [hc, List.filter_cons, ih]
    | some v => simp [hc, List.filter_cons, ih]

/-- Helper: converting the projected row's values in order equals
filter-mapping the destination columns through lookup-then-convert. -/
theorem map_convert_filterToCh (cols : List String) (row : Row) :
    (filterToCh cols row).map (fun p => convert_val p.2) =
      cols.filterMap (fun c => (lookupRow row c).map convert_val) := by
  induction cols with
  | nil => rfl
  | cons c cs ih =>
    simp only [filterToCh, List.filterMap_cons] at ih ⊢
    cases hc : lookupRow row c with
    | none => simpa [hc] using ih
    | some v => simpa [hc] using ih

/-- Helper: distinct destination columns give the projected row distinct
keys. -/
theorem filterToCh_keys_nodup (cols : List String) (row : Row) (h : cols.Nodup) :
    (rowKeys (filterToCh cols row)).Nodup := by
  rw [rowKeys_filterToCh]
  exact h.filter _

/-- Claim C7: for distinct destination columns, the insertion tuple of a
row is exactly, in destination-schema order, the converted values of the
destination columns present in the row — a source column outside the
schema never contributes, a destination column absent from the row is
skipped, and no error (`none`) arises. -/
theorem claim_C7_projection (ch_columns : List String) (row : Row)
    (hnd : ch_columns.Nodup) :
    prepare_row ch_columns row =
      some (ch_columns.filterMap (fun c => (lookupRow row c).map convert_val)) := by
  unfold prepare_row
  rw [convert_row_for_ch_self (filterToCh ch_columns row)
        (filterToCh_keys_nodup ch_columns row hnd),
      map_convert_filterToCh]

/-- Witness for C7: schema `[a, b, c]`, row with `a`, `c` and an extra
column `x` — the tuple keeps `a` and `c` in order, drops `x`, skips `b`
without error. -/
theorem claim_C7_projection_witness :
    prepare_row ["a", "b", "c"]
      [("a", PgVal.vint 1), ("c", PgVal.vnone), ("x", PgVal.vstr "extra")] =
      some [PgVal.vint 1, PgVal.vnone] := by
  have h := claim_C7_projection ["a", "b", "c"]
    [("a", PgVal.vint 1), ("c", PgVal.vnone), ("x", PgVal.vstr "extra")] (by decide)
  exact h.trans (by decide)

/-- Counterexample for C5: on a join miss (entity with no matching lead,
so every lead-side column is `NULL` — in particular no onboarding
record), the spec-worded rule assigns `Yet To Onboard` but the query of
code.py lines 103-115 assigns `Onboarded`: the code requires the
conjunction of the three conditions, not the disjunction the claim
states. -/
theorem claim_C5_counterexample :
    onboard_status_claimed ⟨none, none, none⟩ = "Yet To Onboard" ∧
    onboard_status_case ⟨none, none, none⟩ = "Onboarded" ∧
    onboard_status_case ⟨none, none, none⟩ ≠ onboard_status_claimed ⟨none, none, none⟩ := by
  refine ⟨by decide, by decide, by decide⟩

/-- Claim C5 as amended: a row gets `Yet To Onboard` exactly when the
joined lead columns satisfy all three conditions — `existing_client` is
`NULL`, `l.client_fk` is non-`NULL`, and `l.stage` is non-`NULL` and
different from `Onboarded`; every other row (a join miss included) gets
`Onboarded`, and no third value occurs. -/
theorem claim_C5_amended_conjunction (l : LeadCols) :
    (onboard_status_case l = "Yet To Onboard" ↔
      l.existing_client = none ∧ l.client_fk ≠ none ∧
        ∃ s, l.stage = some s ∧ s ≠ "Onboarded") ∧
    (onboard_status_case l = "Yet To Onboard" ∨ onboard_status_case l = "Onboarded") := by
  obtain ⟨ec, cf, st⟩ := l
  constructor
  · rcases ec with _ | a <;> rcases cf with _ | b <;> rcases st with _ | s <;>
      simp [onboard_status_case, sql_stage_not_onboarded]
  · unfold onboard_status_case
    split
    · exact Or.inl rfl
    · exact Or.inr rfl

/-- Helper: the catch-all handler of code.py lines 174-178 makes a
failed enrichment batch indistinguishable from a successful batch that
returned three empty mappings. -/
theorem get_enrichment_error_eq (client_fks : List PgVal) (e : String) :
    get_enrichment client_fks (Except.error e) =
      get_enrichment client_fks (Except.ok ⟨[], [], []⟩) := by
  unfold get_enrichment
  split
  · rfl
  · rfl

/-- Helper: a key of the row looks up successfully. -/
theorem lookupRow_isSome_of_mem_keys (r : Row) (c : String) (h : c ∈ rowKeys r) :
    (lookupRow r c).isSome := by
  induction r with
  | nil => simp [rowKeys] at h
  | cons p rest ih =>
    obtain ⟨k, v⟩ := p
    have h2 : c ∈ k :: rowKeys rest := h
    show (if c = k then some v else lookupRow rest c).isSome
    by_cases hck : c = k
    · rw [if_pos hck]
      rfl
    · rw [if_neg hck]
      exact ih ((List.mem_cons.mp h2).resolve_left hck)

/-- Helper: `convert_row_for_ch` succeeds when every requested column is
present. -/
theorem convert_row_for_ch_isSome (r : Row) (cols : List String)
    (h : ∀ c ∈ cols, (lookupRow r c).isSome) :
    (convert_row_for_ch r cols).isSome := by
  induction cols with
  | nil => rfl
  | cons c cs ih =>
    unfold convert_row_for_ch
    cases hc : lookupRow r c with
    | none =>
      have := h c (List.mem_cons_self c cs)
      rw [hc] at this
      exact absurd this (by decide)
    | some v =>
      have htail := ih (fun x hx => h x (List.mem_cons_of_mem c hx))
      cases hm : convert_row_for_ch r cs with
      | none =>
        rw [hm] at htail
        exact absurd htail (by decide)
      | some tail => rfl

/-- Helper: the row projection of code.py lines 218-224 never raises —
it reads back only the keys it just wrote. -/
theorem prepare_row_isSome (cols : List String) (row : Row) :
    (prepare_row cols row).isSome := by
  unfold prepare_row
  exact convert_row_for_ch_isSome (filterToCh cols row) (rowKeys (filterToCh cols row))
    (fun c hc => lookupRow_isSome_of_mem_keys (filterToCh cols row) c hc)

/-- Helper: a loop whose every iteration succeeds succeeds. -/
theorem mapOption_isSome {α β : Type} (f : α → Option β) (l : List α)
    (h : ∀ a ∈ l, (f a).isSome) : (mapOption f l).isSome := by
  induction l with
  | nil => rfl
  | cons a rest ih =>
    unfold mapOption
    cases hf : f a with
    | none =>
      have := h a (List.mem_cons_self a rest)
      rw [hf] at this
      simp at this
    | some b =>
      have htail := ih (fun x hx => h x (List.mem_cons_of_mem a hx))
      cases hm : mapOption f rest with
      | none =>
        rw [hm] at htail
        simp at htail
      | some bs => rfl

/-- Helper: enhancing a row succeeds as soon as the row carries its
`client_fk` and `onboard_status` columns. -/
theorem enhance_row_isSome (parse : String → Option Int) (today : Int)
    (enr : Enrichment) (row : Row)
    (h1 : (lookupRow row "client_fk").isSome)
    (h2 : (lookupRow row "onboard_status").isSome) :
    (enhance_row parse today enr row).isSome := by
  unfold enhance_row
  cases hc : lookupRow row "client_fk" with
  | none =>
    rw [hc] at h1
    exact absurd h1 (by decide)
  | some cfk =>
    cases ho : lookupRow row "onboard_status" with
    | none =>
      rw [ho] at h2
      exact absurd h2 (by decide)
    | some ob => rfl

/-- Claim C6: a failing enrichment batch is absorbed — the sync result
with `Except.error` equals the result with three empty mappings, and
(for a non-empty row set whose rows carry the `client_fk` and
`onboard_status` columns) the sync still reaches classification and
write instead of aborting (`isSome`). -/
theorem claim_C6_enrichment_degrades (parse : String → Option Int) (today : Int)
    (ch_columns : List String) (rows : List Row) (dest : List (List PgVal)) (e : String) :
    sync_pg_to_ch_client_group parse today ch_columns rows (Except.error e) dest =
      sync_pg_to_ch_client_group parse today ch_columns rows (Except.ok ⟨[], [], []⟩) dest ∧
    (rows ≠ [] →
      (∀ r ∈ rows, (lookupRow r "client_fk").isSome ∧ (lookupRow r "onboard_status").isSome) →
      (sync_pg_to_ch_client_group parse today ch_columns rows (Except.error e) dest).isSome) := by
  constructor
  · simp only [sync_pg_to_ch_client_group, sync_body, get_enrichment_error_eq]
  · intro hne hkeys
    obtain ⟨fks, hfks⟩ := Option.isSome_iff_exists.mp
      (mapOption_isSome (fun row => lookupRow row "client_fk") rows
        (fun r hr => (hkeys r hr).1))
    obtain ⟨enh, henh⟩ := Option.isSome_iff_exists.mp
      (mapOption_isSome
        (enhance_row parse today (get_enrichment fks (Except.error e))) rows
        (fun r hr => enhance_row_isSome parse today _ r (hkeys r hr).1 (hkeys r hr).2))
    cases rows with
    | nil => exact absurd rfl hne
    | cons r rs =>
      show (sync_body parse today ch_columns (r :: rs) (Except.error e)).isSome
      unfold sync_body
      rw [hfks, Option.some_bind, henh, Option.some_bind]
      exact mapOption_isSome (prepare_row ch_columns) enh
        (fun a _ => prepare_row_isSome ch_columns a)

/-- Witness for C6: one well-formed row, a failing batch — the sync
still produces a destination state. -/
theorem claim_C6_enrichment_degrades_witness :
    (sync_pg_to_ch_client_group parse0 0 ["client_fk", "account_status"]
      [[("client_fk", PgVal.vint 1), ("onboard_status", PgVal.vstr "Onboarded")]]
      (Except.error "boom") []).isSome := by
  have h := claim_C6_enrichment_degrades parse0 0 ["client_fk", "account_status"]
    [[("client_fk", PgVal.vint 1), ("onboard_status", PgVal.vstr "Onboarded")]] [] "boom"
  exact h.2 (by decide) (by decide)

/-- Counterexample for C9: with an empty source row set the sync returns
early before the `TRUNCATE` (code.py lines 211-213), so two different
prior destination states survive unchanged — the final destination state
is not a function of the source data alone. -/
theorem claim_C9_counterexample :
    sync_pg_to_ch_client_group parse0 0 [] [] (Except.ok ⟨[], [], []⟩)
      [[PgVal.vint 1]] = some [[PgVal.vint 1]] ∧
    sync_pg_to_ch_client_group parse0 0 [] [] (Except.ok ⟨[], [], []⟩)
      [] = some [] ∧
    ([[PgVal.vint 1]] : List (List PgVal)) ≠ [] := by
  refine ⟨rfl, rfl, by decide⟩

/-- Claim C9 as amended: running the sync twice in succession with the
same source rows, enrichment outcome and evaluation date leaves the
destination state of the first run unchanged (identical state both
times); and whenever the source returned at least one row, the
truncate-then-insert replace makes the final state independent of the
destination's prior contents (with zero source rows the sync is a no-op
and the prior contents persist). -/
theorem claim_C9_amended_idempotent (parse : String → Option Int) (today : Int)
    (ch_columns : List String) (rows : List Row) (fetch : Except String Enrichment)
    (dest dest2 : List (List PgVal)) :
    (∀ d1, sync_pg_to_ch_client_group parse today ch_columns rows fetch dest = some d1 →
      sync_pg_to_ch_client_group parse today ch_columns rows fetch d1 = some d1) ∧
    (rows ≠ [] →
      sync_pg_to_ch_client_group parse today ch_columns rows fetch dest =
        sync_pg_to_ch_client_group parse today ch_columns rows fetch dest2) := by
  constructor
  · intro d1 h1
    cases rows with
    | nil => rfl
    | cons r rs =>
      have e1 : sync_pg_to_ch_client_group parse today ch_columns (r :: rs) fetch dest =
          sync_body parse today ch_columns (r :: rs) fetch := rfl
      rw [e1] at h1
      show sync_body parse today ch_columns (r :: rs) fetch = some d1
      exact h1
  · intro hne
    cases rows with
    | nil => exact absurd rfl hne
    | cons r rs => rfl

/-- Witness for C9: a one-row source — the first run computes the
replaced state, the second run reproduces it exactly. -/
theorem claim_C9_amended_idempotent_witness :
    sync_pg_to_ch_client_group parse0 0 ["client_fk", "account_status"]
      [[("client_fk", PgVal.vint 1), ("onboard_status", PgVal.vstr "Onboarded")]]
      (Except.ok ⟨[], [], []⟩) [[PgVal.vint 1, PgVal.vstr "Active"]] =
      some [[PgVal.vint 1, PgVal.vstr "Still Born/Not started"]] ∧
    sync_pg_to_ch_client_group parse0 0 ["client_fk", "account_status"]
      [[("client_fk", PgVal.vint 1), ("onboard_status", PgVal.vstr "Onboarded")]]
      (Except.ok ⟨[], [], []⟩) [[PgVal.vint 1, PgVal.vstr "Still Born/Not started"]] =
      some [[PgVal.vint 1, PgVal.vstr "Still Born/Not started"]] := by
  have h := claim_C9_amended_idempotent parse0 0 ["client_fk", "account_status"]
    [[("client_fk", PgVal.vint 1), ("onboard_status", PgVal.vstr "Onboarded")]]
    (Except.ok ⟨[], [], []⟩) [[PgVal.vint 1, PgVal.vstr "Active"]] []
  exact ⟨by decide, h.1 [[PgVal.vint 1, PgVal.vstr "Still Born/Not started"]] (by decide)⟩
